import Mathlib

/-!
Verification development for the PyAgg RSS data model
(`src/pyagg/model/rss.py`).

The module is a SQLAlchemy declarative schema: nine mapped classes
(`Channel`, `ChannelCategory`, `ChannelCloud`, `ChannelImage`,
`ChannelTextInput`, `ChannelItem`, `ChannelItemCategory`, `SkipHour`,
`SkipDay`), each a table of rows with a surrogate integer primary key,
nullable columns, and foreign keys declared with
`onupdate="CASCADE", ondelete="CASCADE"`.

The embedding has three facets, each read directly off the source:
1. row types and a `Storage` of row lists, with the schema constraints
   (primary-key uniqueness, foreign keys that must resolve when
   non-null) as a decidable well-formedness predicate, and the
   `ON DELETE CASCADE` semantics declared on every foreign key as an
   explicit `deleteChannel` operation;
2. the association-proxy set collections (`collection_class=set`
   together with `association_proxy`) as a `ProxySet` with the add and
   remove operations the proxy exposes;
3. the declarative metadata itself (table names, column names, foreign
   keys, relation declarations) as literal `TableSpec` / `RelationSpec`
   values.
-/

/-- `DateTime` columns carry opaque timestamp values; the model never
inspects them, so an abstract numeric code suffices. -/
abbrev DateTime := Nat

/-- Row of table `channels` (class `Channel`): surrogate key plus the
thirteen scalar columns, every one nullable as in the source. -/
structure Channel where
  id : Nat
  title : Option String
  link : Option String
  description : Option String
  language : Option String
  copyright : Option String
  managingEditor : Option String
  webMaster : Option String
  pubDate : Option DateTime
  lastBuildDate : Option DateTime
  generator : Option String
  docs : Option String
  ttl : Option String
  rating : Option String
deriving DecidableEq, Repr

/-- Row of table `channel_cagegories` (class `ChannelCategory`).
`channel_id` is a nullable foreign key into `channels.id`. -/
structure ChannelCategory where
  id : Nat
  channel_id : Option Nat
  category : Option String
deriving DecidableEq, Repr

/-- Row of table `channel_clouds` (class `ChannelCloud`). -/
structure ChannelCloud where
  id : Nat
  channel_id : Option Nat
  domain : Option String
  port : Option Int
  path : Option String
  registerProcedure : Option String
  protocol : Option String
deriving DecidableEq, Repr

/-- Row of table `channel_iamges` (class `ChannelImage`). -/
structure ChannelImage where
  id : Nat
  channel_id : Option Nat
  url : Option String
  title : Option String
  link : Option String
  width : Option Int
  height : Option Int
deriving DecidableEq, Repr

/-- Row of table `channel_text_inputs` (class `ChannelTextInput`). -/
structure ChannelTextInput where
  id : Nat
  channel_id : Option Nat
  title : Option String
  description : Option String
  name : Option String
  link : Option String
deriving DecidableEq, Repr

/-- Row of table `channel_item_cagegories` (class `ChannelItemCategory`).
`channel_item_id` is a nullable foreign key into `channel_items.id`. -/
structure ChannelItemCategory where
  id : Nat
  channel_item_id : Option Nat
  category : Option String
deriving DecidableEq, Repr

/-- Row of table `channel_items` (class `ChannelItem`). The source
declares `guidIsAPermaLink = Column(Boolean)` with no default, so the
column is a nullable boolean. -/
structure ChannelItem where
  id : Nat
  channel_id : Option Nat
  title : Option String
  link : Option String
  description : Option String
  author : Option String
  comments : Option String
  enclosure : Option String
  guid : Option String
  guidIsAPermaLink : Option Bool
  pubDate : Option DateTime
  source : Option String
deriving DecidableEq, Repr

/-- Row of table `skip_hours` (class `SkipHour`). `hour` is declared
`Column(Integer)`: a nullable integer with no range constraint. -/
structure SkipHour where
  id : Nat
  channel_id : Option Nat
  hour : Option Int
deriving DecidableEq, Repr

/-- Row of table `skip_days` (class `SkipDay`). -/
structure SkipDay where
  id : Nat
  channel_id : Option Nat
  day : Option String
deriving DecidableEq, Repr

/-- A storage state: one row list per mapped table of `rss.py`. -/
structure Storage where
  channels : List Channel
  channelCategories : List ChannelCategory
  channelClouds : List ChannelCloud
  channelImages : List ChannelImage
  channelTextInputs : List ChannelTextInput
  channelItems : List ChannelItem
  channelItemCategories : List ChannelItemCategory
  skipHours : List SkipHour
  skipDays : List SkipDay
deriving DecidableEq, Repr

/-- Primary-key uniqueness of one table: no id occurs twice. -/
def distinctIds : List Nat → Bool
  | [] => true
  | x :: xs => !(xs.contains x) && distinctIds xs

/-- A foreign-key value satisfies its constraint when it is null or
references an existing parent id. The columns are declared without
`nullable=False`, so SQL's `MATCH SIMPLE` semantics apply: `NULL`
passes, a non-null value must resolve. -/
def fkOk (fk : Option Nat) (parentIds : List Nat) : Bool :=
  match fk with
  | none => true
  | some p => parentIds.contains p

/-- The ids of all channel rows. -/
def Storage.channelIds (st : Storage) : List Nat :=
  st.channels.map (fun c => c.id)

/-- The ids of all channel-item rows. -/
def Storage.channelItemIds (st : Storage) : List Nat :=
  st.channelItems.map (fun c => c.id)

/-- The constraints the schema of `rss.py` declares, and only those:
each table's primary keys are unique, and every foreign-key column
(`channel_id` on the seven children of `channels`, `channel_item_id`
on `channel_item_cagegories`) is null or resolves to a parent row.
No unique constraint, check constraint, or `nullable=False` appears in
the source, so none is modelled. -/
def Storage.wf (st : Storage) : Bool :=
  distinctIds st.channelIds &&
  distinctIds (st.channelCategories.map (fun r => r.id)) &&
  distinctIds (st.channelClouds.map (fun r => r.id)) &&
  distinctIds (st.channelImages.map (fun r => r.id)) &&
  distinctIds (st.channelTextInputs.map (fun r => r.id)) &&
  distinctIds st.channelItemIds &&
  distinctIds (st.channelItemCategories.map (fun r => r.id)) &&
  distinctIds (st.skipHours.map (fun r => r.id)) &&
  distinctIds (st.skipDays.map (fun r => r.id)) &&
  st.channelCategories.all (fun r => fkOk r.channel_id st.channelIds) &&
  st.channelClouds.all (fun r => fkOk r.channel_id st.channelIds) &&
  st.channelImages.all (fun r => fkOk r.channel_id st.channelIds) &&
  st.channelTextInputs.all (fun r => fkOk r.channel_id st.channelIds) &&
  st.channelItems.all (fun r => fkOk r.channel_id st.channelIds) &&
  st.skipHours.all (fun r => fkOk r.channel_id st.channelIds) &&
  st.skipDays.all (fun r => fkOk r.channel_id st.channelIds) &&
  st.channelItemCategories.all
    (fun r => fkOk r.channel_item_id st.channelItemIds)

/-- The ids of the channel-item rows a deletion of channel `cid` takes
with it: those whose `channel_id` foreign key references `cid`. -/
def deletedItemIds (st : Storage) (cid : Nat) : List Nat :=
  (st.channelItems.filter (fun it => it.channel_id == some cid)).map
    (fun it => it.id)

/-- Deleting a channel row, following the `ON DELETE CASCADE` clause on
every foreign key of `rss.py`: the seven tables holding a `channel_id`
foreign key drop the rows referencing the deleted channel, and because
`channel_item_cagegories.channel_item_id` cascades on `channel_items`,
rows referencing any item that is itself deleted are dropped too. -/
def deleteChannel (st : Storage) (cid : Nat) : Storage :=
  { channels := st.channels.filter (fun c => c.id != cid)
    channelCategories :=
      st.channelCategories.filter (fun r => r.channel_id != some cid)
    channelClouds :=
      st.channelClouds.filter (fun r => r.channel_id != some cid)
    channelImages :=
      st.channelImages.filter (fun r => r.channel_id != some cid)
    channelTextInputs :=
      st.channelTextInputs.filter (fun r => r.channel_id != some cid)
    channelItems :=
      st.channelItems.filter (fun it => it.channel_id != some cid)
    channelItemCategories :=
      st.channelItemCategories.filter (fun r =>
        match r.channel_item_id with
        | none => true
        | some iid => !((deletedItemIds st cid).contains iid))
    skipHours := st.skipHours.filter (fun r => r.channel_id != some cid)
    skipDays := st.skipDays.filter (fun r => r.channel_id != some cid) }

/-- The in-memory collection behind `collection_class=set` plus
`association_proxy` in `rss.py` (`Channel._categories`,
`Channel._skipHours`, `Channel._skipDays`, `ChannelItem._categories`):
a set of child objects, each a distinct object (identity `oid`)
carrying one scalar value; the proxy presents the scalar values. -/
structure ProxySet (α : Type) where
  objs : List (Nat × α)
  nextOid : Nat
deriving Repr

/-- The scalar view the association proxy exposes. -/
def ProxySet.scalars {α : Type} (s : ProxySet α) : List α :=
  s.objs.map Prod.snd

/-- The empty collection of a freshly created parent. -/
def ProxySet.empty {α : Type} : ProxySet α :=
  { objs := [], nextOid := 0 }

/-- Adding a value through the association proxy: the proxy's set
interface first checks membership of the scalar value and only then
creates a new child object holding it. -/
def ProxySet.add {α : Type} [DecidableEq α] (s : ProxySet α) (v : α) :
    ProxySet α :=
  if v ∈ s.scalars then s
  else { objs := (s.nextOid, v) :: s.objs, nextOid := s.nextOid + 1 }

/-- Drop the first child object carrying the given scalar value. -/
def removeFirstObj {α : Type} [DecidableEq α] :
    List (Nat × α) → α → List (Nat × α)
  | [], _ => []
  | o :: os, v => if o.2 = v then os else o :: removeFirstObj os v

/-- Removing a value through the association proxy: the proxy discards
the child object whose scalar matches. -/
def ProxySet.remove {α : Type} [DecidableEq α] (s : ProxySet α) (v : α) :
    ProxySet α :=
  { s with objs := removeFirstObj s.objs v }

/-- One operation on a proxied set collection. -/
inductive ProxyOp (α : Type) where
  | add (v : α)
  | remove (v : α)

/-- Interpret one proxy operation. -/
def applyOp {α : Type} [DecidableEq α] (s : ProxySet α) :
    ProxyOp α → ProxySet α
  | ProxyOp.add v => s.add v
  | ProxyOp.remove v => s.remove v

/-- Interpret a sequence of proxy operations, oldest first. -/
def applyOps {α : Type} [DecidableEq α] (s : ProxySet α)
    (ops : List (ProxyOp α)) : ProxySet α :=
  ops.foldl applyOp s

/-- The scalar view as a finite set, forgetting object identity and
iteration order — the value a reader of the proxied collection can
rely on. -/
def ProxySet.scalarFinset {α : Type} [DecidableEq α] (s : ProxySet α) :
    Finset α :=
  s.scalars.toFinset

/-- One foreign-key clause of the schema metadata, as written in the
source: the declaring column, the referenced table and column, and the
`onupdate` / `ondelete` actions. -/
structure ForeignKeySpec where
  column : String
  refTable : String
  refColumn : String
  onupdate : String
  ondelete : String
deriving DecidableEq, Repr

/-- One table of the schema metadata: its `__tablename__`, its column
names in declaration order, and its foreign keys. -/
structure TableSpec where
  name : String
  columns : List String
  foreignKeys : List ForeignKeySpec
deriving DecidableEq, Repr

/-- One `relation(...)` declaration on a mapped class: the attribute
name, the target table, whether `collection_class=set` is given, and
whether `cascade="all, delete-orphan"` is given. -/
structure RelationSpec where
  attr : String
  targetTable : String
  collectionIsSet : Bool
  cascadeDeleteOrphan : Bool
deriving DecidableEq, Repr

/-- Metadata of class `ChannelCategory`. -/
def channelCategoryTable : TableSpec :=
  { name := "channel_cagegories"
    columns := ["id", "channel_id", "category"]
    foreignKeys := [⟨"channel_id", "channels", "id", "CASCADE", "CASCADE"⟩] }

/-- Metadata of class `ChannelCloud`. -/
def channelCloudTable : TableSpec :=
  { name := "channel_clouds"
    columns := ["id", "channel_id", "domain", "port", "path",
      "registerProcedure", "protocol"]
    foreignKeys := [⟨"channel_id", "channels", "id", "CASCADE", "CASCADE"⟩] }

/-- Metadata of class `ChannelImage`. -/
def channelImageTable : TableSpec :=
  { name := "channel_iamges"
    columns := ["id", "channel_id", "url", "title", "link", "width", "height"]
    foreignKeys := [⟨"channel_id", "channels", "id", "CASCADE", "CASCADE"⟩] }

/-- Metadata of class `ChannelTextInput`. -/
def channelTextInputTable : TableSpec :=
  { name := "channel_text_inputs"
    columns := ["id", "channel_id", "title", "description", "name", "link"]
    foreignKeys := [⟨"channel_id", "channels", "id", "CASCADE", "CASCADE"⟩] }

/-- Metadata of class `ChannelItemCategory`. -/
def channelItemCategoryTable : TableSpec :=
  { name := "channel_item_cagegories"
    columns := ["id", "channel_item_id", "category"]
    foreignKeys :=
      [⟨"channel_item_id", "channel_items", "id", "CASCADE", "CASCADE"⟩] }

/-- Metadata of class `ChannelItem`. -/
def channelItemTable : TableSpec :=
  { name := "channel_items"
    columns := ["id", "channel_id", "title", "link", "description", "author",
      "comments", "enclosure", "guid", "guidIsAPermaLink", "pubDate", "source"]
    foreignKeys := [⟨"channel_id", "channels", "id", "CASCADE", "CASCADE"⟩] }

/-- Metadata of class `SkipHour`. -/
def skipHourTable : TableSpec :=
  { name := "skip_hours"
    columns := ["id", "channel_id", "hour"]
    foreignKeys := [⟨"channel_id", "channels", "id", "CASCADE", "CASCADE"⟩] }

/-- Metadata of class `SkipDay`. -/
def skipDayTable : TableSpec :=
  { name := "skip_days"
    columns := ["id", "channel_id", "day"]
    foreignKeys := [⟨"channel_id", "channels", "id", "CASCADE", "CASCADE"⟩] }

/-- Metadata of class `Channel` (the root table: no foreign key). -/
def channelTable : TableSpec :=
  { name := "channels"
    columns := ["id", "title", "link", "description", "language", "copyright",
      "managingEditor", "webMaster", "pubDate", "lastBuildDate", "generator",
      "docs", "ttl", "rating"]
    foreignKeys := [] }

/-- All nine tables declared by `rss.py`, in source order. -/
def rssTables : List TableSpec :=
  [channelCategoryTable, channelCloudTable, channelImageTable,
   channelTextInputTable, channelItemCategoryTable, channelItemTable,
   skipHourTable, skipDayTable, channelTable]

/-- The `relation(...)` declarations on class `Channel`, in source
order: `_categories`, `cloud`, `image`, `textInput`, `_skipHours`,
`_skipDays` — and nothing mapping `channel_items`. -/
def channelRelations : List RelationSpec :=
  [⟨"_categories", "channel_cagegories", true, true⟩,
   ⟨"cloud", "channel_clouds", false, false⟩,
   ⟨"image", "channel_iamges", false, false⟩,
   ⟨"textInput", "channel_text_inputs", false, false⟩,
   ⟨"_skipHours", "skip_hours", true, true⟩,
   ⟨"_skipDays", "skip_days", true, true⟩]

/-- The `relation(...)` declarations on class `ChannelItem`. -/
def channelItemRelations : List RelationSpec :=
  [⟨"_categories", "channel_item_cagegories", true, true⟩]

/-- A `Channel` object freshly created by the declarative constructor
with no keyword arguments: every mapped column attribute is `None`
(the id is the surrogate key assigned at flush time). -/
def newChannel (id : Nat) : Channel :=
  ⟨id, none, none, none, none, none, none, none, none, none, none, none,
   none, none⟩

/-- A `ChannelItem` object freshly created by the declarative
constructor with no keyword arguments: every mapped column attribute,
`guidIsAPermaLink` included, is `None`. -/
def newChannelItem (id : Nat) : ChannelItem :=
  ⟨id, none, none, none, none, none, none, none, none, none, none, none⟩

/-- The thirteen scalar columns of a channel row, as one tuple. -/
def Channel.scalars (c : Channel) :
    Option String × Option String × Option String × Option String ×
    Option String × Option String × Option String × Option DateTime ×
    Option DateTime × Option String × Option String × Option String ×
    Option String :=
  (c.title, c.link, c.description, c.language, c.copyright,
   c.managingEditor, c.webMaster, c.pubDate, c.lastBuildDate, c.generator,
   c.docs, c.ttl, c.rating)

/-- Persist a channel row: append it to the `channels` table. -/
def insertChannel (st : Storage) (ch : Channel) : Storage :=
  { st with channels := st.channels ++ [ch] }

/-- Reload a channel row by primary key. -/
def loadChannel (st : Storage) (cid : Nat) : Option Channel :=
  st.channels.find? (fun c => c.id == cid)

/-- The empty storage state. -/
def emptyStorage : Storage :=
  ⟨[], [], [], [], [], [], [], [], []⟩

/-- An item of channel 1 with surrogate key 5. -/
def item5 : ChannelItem :=
  { newChannelItem 5 with channel_id := some 1 }

/-- A storage state with one channel (id 1) carrying one category, one
item (id 5) with one item category, one skip hour and one skip day. -/
def st1 : Storage :=
  { channels := [newChannel 1]
    channelCategories := [⟨1, some 1, some "News"⟩]
    channelClouds := []
    channelImages := []
    channelTextInputs := []
    channelItems := [item5]
    channelItemCategories := [⟨1, some 5, some "Film"⟩]
    skipHours := [⟨1, some 1, some 3⟩]
    skipDays := [⟨1, some 1, some "Monday"⟩] }

/-- A storage state holding a `ChannelCategory` row whose `channel_id`
is null: no channel exists at all, yet every declared constraint holds,
because the foreign-key column is nullable. -/
def nullChildSt : Storage :=
  { emptyStorage with channelCategories := [⟨1, none, some "orphan"⟩] }

/-- A storage state with channel 1 and one category row referencing it. -/
def goodSt : Storage :=
  { emptyStorage with
    channels := [newChannel 1]
    channelCategories := [⟨1, some 1, some "News"⟩] }

/-- The category row of `goodSt`. -/
def catRow1 : ChannelCategory :=
  ⟨1, some 1, some "News"⟩

/-- A storage state where channel 1 owns two cloud rows, two image rows
and two text-input rows at once. -/
def dupSingletonSt : Storage :=
  { emptyStorage with
    channels := [newChannel 1]
    channelClouds :=
      [⟨1, some 1, some "a.example", some 80, none, none, none⟩,
       ⟨2, some 1, some "b.example", some 81, none, none, none⟩]
    channelImages :=
      [⟨1, some 1, some "http://a.example/a.png", none, none, none, none⟩,
       ⟨2, some 1, some "http://b.example/b.png", none, none, none, none⟩]
    channelTextInputs :=
      [⟨1, some 1, some "Search", none, some "q", none⟩,
       ⟨2, some 1, some "Feedback", none, some "msg", none⟩] }

/-- A storage state with channel 1 and a single `SkipHour` row whose
`hour` column holds the given integer. -/
def hourState (h : Int) : Storage :=
  { emptyStorage with
    channels := [newChannel 1]
    skipHours := [⟨1, some 1, some h⟩] }

/-- A channel row with several scalar columns populated. -/
def sampleChannel : Channel :=
  { newChannel 7 with
    title := some "GoUpstate.com News Headlines"
    link := some "http://www.goupstate.com/"
    language := some "en-us"
    pubDate := some 1031356801
    ttl := some "60"
    rating := some "PICS" }

/-- A filtered list satisfies its own filter predicate everywhere. -/
lemma filter_all_self {α : Type} (p : α → Bool) (l : List α) :
    (l.filter p).all p = true := by
  rw [List.all_eq_true]
  intro x hx
  exact (List.mem_filter.mp hx).2

/-- C1: for every storage state and channel id, after `deleteChannel`
no `ChannelCategory`, `SkipHour`, `SkipDay` or `ChannelItem` row of the
deleted channel remains, and for every item the channel owned no
`ChannelItemCategory` row of that item remains. -/
theorem deleteChannel_removes_all_children (st : Storage) (cid : Nat) :
    ((deleteChannel st cid).channelCategories.all
       (fun r => r.channel_id != some cid) = true)
  ∧ ((deleteChannel st cid).skipHours.all
       (fun r => r.channel_id != some cid) = true)
  ∧ ((deleteChannel st cid).skipDays.all
       (fun r => r.channel_id != some cid) = true)
  ∧ ((deleteChannel st cid).channelItems.all
       (fun it => it.channel_id != some cid) = true)
  ∧ (∀ it ∈ st.channelItems, it.channel_id = some cid →
       (deleteChannel st cid).channelItemCategories.all
         (fun r => r.channel_item_id != some it.id) = true) := by
  refine ⟨filter_all_self _ _, filter_all_self _ _, filter_all_self _ _,
    filter_all_self _ _, ?_⟩
  intro it hit hch
  rw [List.all_eq_true]
  intro r hr
  have hp := (List.mem_filter.mp hr).2
  have hmem : it.id ∈ deletedItemIds st cid := by
    apply List.mem_map.mpr
    refine ⟨it, List.mem_filter.mpr ⟨hit, ?_⟩, rfl⟩
    simp [hch]
  have hcont : (deletedItemIds st cid).contains it.id = true :=
    List.elem_iff.mpr hmem
  cases hcase : r.channel_item_id with
  | none => simp [hcase]
  | some iid =>
    rw [hcase] at hp
    simp only [Bool.not_eq_true'] at hp
    simp only [hcase, bne_iff_ne, ne_eq, Option.some.injEq]
    intro heq
    rw [heq, hcont] at hp
    exact absurd hp (by simp)

/-- C1 witness: in the concrete state `st1`, deleting channel 1 leaves
no item-category row of item 5 behind. -/
theorem deleteChannel_removes_all_children_witness :
    (deleteChannel st1 1).channelItemCategories.all
      (fun r => r.channel_item_id != some item5.id) = true :=
  (deleteChannel_removes_all_children st1 1).2.2.2.2 item5 (by decide)
    (by decide)

/-- Removing the first matching child object yields a sublist. -/
lemma removeFirstObj_sublist {α : Type} [DecidableEq α]
    (l : List (Nat × α)) (v : α) :
    List.Sublist (removeFirstObj l v) l := by
  induction l with
  | nil => exact List.Sublist.refl _
  | cons o os ih =>
    unfold removeFirstObj
    by_cases h : o.2 = v
    · simp only [h, if_pos rfl]
      exact List.sublist_cons_self o os
    · simp only [if_neg h]
      exact List.Sublist.cons₂ o ih

/-- Adding a value through the proxy keeps the scalar view duplicate
free: either the value is already present and nothing changes, or a
fresh child object is created for a value not yet present. -/
lemma nodup_scalars_add {α : Type} [DecidableEq α] (s : ProxySet α)
    (v : α) (h : s.scalars.Nodup) : (s.add v).scalars.Nodup := by
  unfold ProxySet.add
  by_cases hv : v ∈ s.scalars
  · simpa [hv] using h
  · simp only [hv, if_neg, if_false]
    exact List.nodup_cons.mpr ⟨hv, h⟩

/-- Removing a value through the proxy keeps the scalar view duplicate
free. -/
lemma nodup_scalars_remove {α : Type} [DecidableEq α] (s : ProxySet α)
    (v : α) (h : s.scalars.Nodup) : (s.remove v).scalars.Nodup :=
  h.sublist ((removeFirstObj_sublist s.objs v).map Prod.snd)

/-- Every proxy operation preserves a duplicate-free scalar view. -/
lemma nodup_scalars_applyOp {α : Type} [DecidableEq α] (s : ProxySet α)
    (op : ProxyOp α) (h : s.scalars.Nodup) : (applyOp s op).scalars.Nodup := by
  cases op with
  | add v => exact nodup_scalars_add s v h
  | remove v => exact nodup_scalars_remove s v h

/-- A sequence of proxy operations preserves a duplicate-free scalar
view. -/
lemma nodup_scalars_applyOps {α : Type} [DecidableEq α]
    (ops : List (ProxyOp α)) (s : ProxySet α) (h : s.scalars.Nodup) :
    (applyOps s ops).scalars.Nodup := by
  induction ops generalizing s with
  | nil => exact h
  | cons op ops ih => exact ih (applyOp s op) (nodup_scalars_applyOp s op h)

/-- The scalar view of a proxy add, as a finite set, is an insertion. -/
lemma scalarFinset_add {α : Type} [DecidableEq α] (s : ProxySet α)
    (v : α) : (s.add v).scalarFinset = insert v s.scalarFinset := by
  unfold ProxySet.add ProxySet.scalarFinset
  by_cases hv : v ∈ s.scalars
  · rw [if_pos hv]
    exact (Finset.insert_eq_self.mpr (List.mem_toFinset.mpr hv)).symm
  · rw [if_neg hv]
    exact List.toFinset_cons

/-- C2: the set-collections of `rss.py` (`Channel._categories`,
`Channel._skipHours`, `Channel._skipDays`, `ChannelItem._categories`,
all declared `collection_class=set` and presented through an
association proxy) expose a scalar view that never holds the same
value twice after any operation sequence on one parent, and whose
resulting set does not depend on the order of insertions. -/
theorem proxy_collections_are_sets {α : Type} [DecidableEq α] :
    (∀ ops : List (ProxyOp α),
      (applyOps ProxySet.empty ops).scalars.Nodup)
  ∧ (∀ (s : ProxySet α) (a b : α),
      ((s.add a).add b).scalarFinset = ((s.add b).add a).scalarFinset) := by
  constructor
  · intro ops
    exact nodup_scalars_applyOps ops ProxySet.empty List.nodup_nil
  · intro s a b
    rw [scalarFinset_add, scalarFinset_add, scalarFinset_add,
      scalarFinset_add]
    exact Finset.Insert.comm b a s.scalarFinset

/-- C2 witness: adding the category string twice to an empty collection
leaves a duplicate-free scalar view. -/
theorem proxy_collections_are_sets_witness :
    (applyOps ProxySet.empty
      [ProxyOp.add "News", ProxyOp.add "News",
       ProxyOp.add "Film"]).scalars.Nodup :=
  (proxy_collections_are_sets (α := String)).1
    [ProxyOp.add "News", ProxyOp.add "News", ProxyOp.add "Film"]

/-- A table whose rows all satisfy their foreign-key constraint has
every non-null foreign key resolving to a parent id. -/
lemma all_fkOk_resolves {α : Type} (f : α → Option Nat) (l : List α)
    (ids : List Nat) (h : l.all (fun r => fkOk (f r) ids) = true) :
    ∀ r ∈ l, ∀ p, f r = some p → p ∈ ids := by
  intro r hr p hp
  have hall := List.all_eq_true.mp h r hr
  simp only at hall
  rw [hp] at hall
  simp only [fkOk] at hall
  exact List.elem_iff.mp hall

/-- C3 counterexample: the state `nullChildSt` holds a
`ChannelCategory` row whose `channel_id` is null while no channel row
exists at all, yet it satisfies every constraint the schema declares —
a child row with no parent is representable, because no foreign-key
column of `rss.py` carries `nullable=False`. -/
theorem null_fk_child_representable :
    Storage.wf nullChildSt = true
  ∧ nullChildSt.channels = []
  ∧ nullChildSt.channelCategories.any
      (fun r => r.channel_id == none) = true := by
  refine ⟨by decide, rfl, by decide⟩

/-- C3 (amended): in every well-formed storage state, a child row whose
foreign-key column is non-null references an existing parent row; only
the null foreign key escapes the constraint. -/
theorem wf_child_fk_resolves (st : Storage) (h : st.wf = true) :
    (∀ r ∈ st.channelCategories, ∀ p,
       r.channel_id = some p → p ∈ st.channelIds)
  ∧ (∀ r ∈ st.channelClouds, ∀ p,
       r.channel_id = some p → p ∈ st.channelIds)
  ∧ (∀ r ∈ st.channelImages, ∀ p,
       r.channel_id = some p → p ∈ st.channelIds)
  ∧ (∀ r ∈ st.channelTextInputs, ∀ p,
       r.channel_id = some p → p ∈ st.channelIds)
  ∧ (∀ r ∈ st.channelItems, ∀ p,
       r.channel_id = some p → p ∈ st.channelIds)
  ∧ (∀ r ∈ st.skipHours, ∀ p,
       r.channel_id = some p → p ∈ st.channelIds)
  ∧ (∀ r ∈ st.skipDays, ∀ p,
       r.channel_id = some p → p ∈ st.channelIds)
  ∧ (∀ r ∈ st.channelItemCategories, ∀ p,
       r.channel_item_id = some p → p ∈ st.channelItemIds) := by
  simp only [Storage.wf, Bool.and_eq_true] at h
  obtain ⟨⟨⟨⟨⟨⟨⟨⟨-, hcat⟩, hcloud⟩, himg⟩, hti⟩, hitem⟩, hsh⟩, hsd⟩, hic⟩ := h
  exact ⟨all_fkOk_resolves (fun r : ChannelCategory => r.channel_id) _ _ hcat,
    all_fkOk_resolves (fun r : ChannelCloud => r.channel_id) _ _ hcloud,
    all_fkOk_resolves (fun r : ChannelImage => r.channel_id) _ _ himg,
    all_fkOk_resolves (fun r : ChannelTextInput => r.channel_id) _ _ hti,
    all_fkOk_resolves (fun r : ChannelItem => r.channel_id) _ _ hitem,
    all_fkOk_resolves (fun r : SkipHour => r.channel_id) _ _ hsh,
    all_fkOk_resolves (fun r : SkipDay => r.channel_id) _ _ hsd,
    all_fkOk_resolves (fun r : ChannelItemCategory => r.channel_item_id)
      _ _ hic⟩

/-- C3 witness: in the concrete well-formed state `goodSt`, the
non-null foreign key of its category row resolves to channel 1. -/
theorem wf_child_fk_resolves_witness :
    (1 : Nat) ∈ goodSt.channelIds :=
  (wf_child_fk_resolves goodSt (by decide)).1 catRow1 (by decide) 1 (by decide)

/-- C4: the schema does not enforce at-most-one `ChannelCloud`,
`ChannelImage` or `ChannelTextInput` row per channel — `dupSingletonSt`
satisfies every declared constraint while channel 1 owns two distinct
rows of each of the three entities. -/
theorem singleton_children_not_unique :
    Storage.wf dupSingletonSt = true
  ∧ dupSingletonSt.channelClouds.any (fun r1 =>
      dupSingletonSt.channelClouds.any (fun r2 =>
        r1.id != r2.id && r1.channel_id == some 1 &&
          r2.channel_id == some 1)) = true
  ∧ dupSingletonSt.channelImages.any (fun r1 =>
      dupSingletonSt.channelImages.any (fun r2 =>
        r1.id != r2.id && r1.channel_id == some 1 &&
          r2.channel_id == some 1)) = true
  ∧ dupSingletonSt.channelTextInputs.any (fun r1 =>
      dupSingletonSt.channelTextInputs.any (fun r2 =>
        r1.id != r2.id && r1.channel_id == some 1 &&
          r2.channel_id == some 1)) = true := by
  refine ⟨by decide, by decide, by decide, by decide⟩

/-- C5 counterexample: the state `hourState 99` satisfies every
declared constraint while holding a `SkipHour` row whose `hour` is 99,
outside 0..23 — the schema does not restrict the column's range. -/
theorem skip_hour_out_of_range_representable :
    Storage.wf (hourState 99) = true
  ∧ (hourState 99).skipHours.any (fun r => r.hour == some 99) = true
  ∧ ¬((99 : Int) ≤ 23) := by
  refine ⟨by decide, by decide, by decide⟩

/-- C5 (amended): the `hour` column of `skip_hours` is an unconstrained
nullable integer: for every integer `h`, a well-formed storage state
holds a `SkipHour` row with that hour. -/
theorem skip_hour_unconstrained (h : Int) :
    Storage.wf (hourState h) = true
  ∧ (hourState h).skipHours.any (fun r => r.hour == some h) = true := by
  constructor
  · rfl
  · simp [hourState, emptyStorage]

/-- C6 counterexample: a `ChannelItem` created without setting
`guidIsAPermaLink` carries `none` for it — the column has no default,
so the unset state is null, not a definite boolean. -/
theorem guid_permalink_defaults_to_null :
    (newChannelItem 1).guidIsAPermaLink = none
  ∧ (newChannelItem 1).guidIsAPermaLink ≠ some true
  ∧ (newChannelItem 1).guidIsAPermaLink ≠ some false := by
  refine ⟨rfl, by decide, by decide⟩

/-- C6 (amended): for every id, a freshly constructed `ChannelItem`
leaves `guidIsAPermaLink` null; no boolean default is applied. -/
theorem guid_permalink_default_is_none (id : Nat) :
    (newChannelItem id).guidIsAPermaLink = none := rfl

/-- C7: persisting a channel whose id is fresh and reloading it by
primary key yields all thirteen scalar columns unchanged. -/
theorem channel_roundtrip (st : Storage) (ch : Channel)
    (hfresh : st.channels.all (fun c => c.id != ch.id) = true) :
    (loadChannel (insertChannel st ch) ch.id).map Channel.scalars =
      some ch.scalars := by
  have hnone : st.channels.find? (fun c => c.id == ch.id) = none := by
    rw [List.find?_eq_none]
    intro c hc
    have := List.all_eq_true.mp hfresh c hc
    simp only [bne_iff_ne, ne_eq] at this
    simp [this]
  show ((st.channels ++ [ch]).find? (fun c => c.id == ch.id)).map
      Channel.scalars = some ch.scalars
  rw [List.find?_append, hnone, Option.none_or]
  simp [List.find?]

/-- C7 witness: the populated channel `sampleChannel` stored into the
empty storage and reloaded keeps all scalar columns. -/
theorem channel_roundtrip_witness :
    (loadChannel (insertChannel emptyStorage sampleChannel)
        sampleChannel.id).map Channel.scalars =
      some sampleChannel.scalars :=
  channel_roundtrip emptyStorage sampleChannel (by decide)

/-- C8: every foreign key declared in the schema is literally either
`channel_id` referencing `channels.id` or `channel_item_id`
referencing `channel_items.id`, in both cases with
`onupdate="CASCADE"` and `ondelete="CASCADE"`; every table except the
root `channels` declares exactly one such key, and `channels` none. -/
theorem fk_naming_and_cascade :
    rssTables.all (fun tbl => tbl.foreignKeys.all (fun fk =>
      fk == ⟨"channel_id", "channels", "id", "CASCADE", "CASCADE"⟩
      || fk == ⟨"channel_item_id", "channel_items", "id",
           "CASCADE", "CASCADE"⟩)) = true
  ∧ rssTables.all (fun tbl =>
      tbl.name == "channels" || tbl.foreignKeys.length == 1) = true
  ∧ channelTable.foreignKeys = [] := by
  refine ⟨by decide, by decide, rfl⟩

/-- C9: the `__tablename__` strings for channel categories, channel
images and item categories are the misspelled `channel_cagegories`,
`channel_iamges` and `channel_item_cagegories`, not the conventional
spellings. -/
theorem table_names_misspelled :
    channelCategoryTable.name = "channel_cagegories"
  ∧ channelCategoryTable.name ≠ "channel_categories"
  ∧ channelImageTable.name = "channel_iamges"
  ∧ channelImageTable.name ≠ "channel_images"
  ∧ channelItemCategoryTable.name = "channel_item_cagegories"
  ∧ channelItemCategoryTable.name ≠ "channel_item_categories" := by
  refine ⟨rfl, by decide, rfl, by decide, rfl, by decide⟩

/-- C10: class `Channel` declares no `relation` mapping the
`channel_items` table — the six relations it declares target other
tables — while `channel_items` carries the row-level `channel_id`
foreign key with cascade, the only link between items and their
channel. -/
theorem channel_has_no_items_collection :
    channelRelations.all (fun r => r.targetTable != "channel_items") = true
  ∧ channelRelations.length = 6
  ∧ channelItemTable.foreignKeys =
      [⟨"channel_id", "channels", "id", "CASCADE", "CASCADE"⟩] := by
  refine ⟨by decide, rfl, rfl⟩

/-- C5 witness: the unconstrained-hour theorem applied at hour 7. -/
theorem skip_hour_unconstrained_witness :
    Storage.wf (hourState 7) = true
  ∧ (hourState 7).skipHours.any (fun r => r.hour == some 7) = true :=
  skip_hour_unconstrained 7

/-- C6 witness: the null-default theorem applied at id 2. -/
theorem guid_permalink_default_is_none_witness :
    (newChannelItem 2).guidIsAPermaLink = none :=
  guid_permalink_default_is_none 2
